import Mathlib

/-!
Verification development for the MSME_EDA repository.

Shallow embedding of `src/fetch.py` (class `DistrictDataFetcher`) and
`src/parser.py` (function `parse_activities` and the flatten-and-export
script body).  External effects (HTTP, sleeping, logging, the filesystem)
are made observable: HTTP responses become oracle parameters, sleeps and
requested offsets become explicit trace lists, and a raised exception that
escapes a function becomes `none`.
-/

/-- A registry record: a Python dict whose values the code reads back through
`str(...)`.  Modeled as an association list from field name to value. -/
abbrev Rec := List (String × String)

/-- Python `str.capitalize()`: first character upper-cased, the remaining
characters lower-cased. -/
def pyCapitalize (s : String) : String :=
  match s.data with
  | [] => ""
  | c :: cs => String.mk (c.toUpper :: cs.map Char.toLower)

/-- Python string whitespace, as stripped by `str.strip()`. -/
def pyWsChar (c : Char) : Bool :=
  c == ' ' || c == '\t' || c == '\n' || c == '\r' || c == '\x0b' || c == '\x0c'

/-- Python `str.strip()`: remove leading and trailing whitespace. -/
def pyStrip (s : String) : String :=
  String.mk (((s.data.dropWhile pyWsChar).reverse.dropWhile pyWsChar).reverse)

/-- Python `str.lower()`: lower-case every character. -/
def pyLower (s : String) : String :=
  String.mk (s.data.map Char.toLower)

/-- The `key_fields` list of `DistrictDataFetcher.generate_record_id`. -/
def key_fields : List String :=
  ["District", "State", "EnterpriseName", "CommunicationAddress"]

/-- `record.get(field, record.get(field.capitalize(), ''))` from
`generate_record_id`. -/
def getKeyField (record : Rec) (field : String) : String :=
  match record.lookup field with
  | some v => v
  | none => (record.lookup (pyCapitalize field)).getD ""

/-- `DistrictDataFetcher.generate_record_id`: for each key field, the looked
up value is stripped and lower-cased (`str(value).strip().lower()`), and the
four parts are joined with `'|'`. -/
def generate_record_id (record : Rec) : String :=
  String.intercalate "|" (key_fields.map fun f => pyLower (pyStrip (getKeyField record f)))

/-- The Fetch Scope `self.processed_records`, a set of identity keys.
Modeled as a list of keys queried by membership. -/
abbrev Scope := List String

/-- `DistrictDataFetcher.is_duplicate_record`, with the mutated
`self.processed_records` made explicit: returns the boolean result together
with the scope after the call. -/
def is_duplicate_record (record : Rec) (processed_records : Scope) : Bool × Scope :=
  let record_id := generate_record_id record
  if record_id ∈ processed_records then (true, processed_records)
  else (false, record_id :: processed_records)

/-- Outcome of one attempt of the retry loop in
`DistrictDataFetcher.fetch_batch`: the GET succeeds and the body decodes
(`success` carries `data.get('records', [])`), or the attempt raises a
`requests.exceptions.RequestException`, a `json.JSONDecodeError`, or some
other exception; each raised class is dispatched to its matching `except`
clause as written. -/
inductive AttemptOutcome
  | success (records : List Rec)
  | requestError
  | decodeError
  | otherError

/-- The retry loop of `fetch_batch`.  `outcomes attempt` is what the
attempt with that index does; `rem` is the number of loop iterations left.
Returns the Python return value (`none` models falling off the loop, which
returns `None`) paired with the list of backoff sleeps performed, in
seconds. -/
def fetchBatchGo (outcomes : Nat → AttemptOutcome) (max_retries : Nat) :
    Nat → Nat → Option (List Rec) × List Nat
  | _, 0 => (none, [])
  | attempt, rem + 1 =>
    match outcomes attempt with
    | .success records => (some records, [])
    | .requestError =>
      if attempt < max_retries - 1 then
        let r := fetchBatchGo outcomes max_retries (attempt + 1) rem
        (r.1, 2 ^ attempt :: r.2)
      else (some [], [])
    | .decodeError => (some [], [])
    | .otherError => (some [], [])

/-- `DistrictDataFetcher.fetch_batch` for a fixed district and offset: the
loop `for attempt in range(max_retries)` over the attempt outcomes. -/
def fetch_batch (outcomes : Nat → AttemptOutcome) (max_retries : Nat) :
    Option (List Rec) × List Nat :=
  fetchBatchGo outcomes max_retries 0 max_retries

/-- The duplicate-filter loop inside `fetch_all_district_data`:
`for record in batch_records: if not self.is_duplicate_record(record): append`.
Returns the surviving records and the scope after the batch. -/
def filterDuplicates : List Rec → Scope → List Rec × Scope
  | [], scope => ([], scope)
  | record :: rest, scope =>
    let r := is_duplicate_record record scope
    let t := filterDuplicates rest r.2
    if r.1 then t else (record :: t.1, t.2)

/-- The batch loop of `fetch_all_district_data`.  `pages offset` models the
list returned by `fetch_batch` at that offset; `n` is the number of batches
left and `batch` the current batch index.  Returns the accumulated records,
the final scope, and the trace of offsets requested, in order. -/
def fetchAllLoop (pages : Nat → List Rec) (batch_size : Nat) :
    Nat → Nat → Scope → List Rec × Scope × List Nat
  | 0, _, scope => ([], scope, [])
  | n + 1, batch, scope =>
    let offset := batch * batch_size
    let batch_records := pages offset
    let fd := if batch_records.isEmpty then ([], scope)
              else filterDuplicates batch_records scope
    let rest := fetchAllLoop pages batch_size n (batch + 1) fd.2
    (fd.1 ++ rest.1, rest.2.1, offset :: rest.2.2)

/-- `DistrictDataFetcher.fetch_all_district_data`.  `total_records` stands
for the value returned by `get_total_records`; if it is zero the function
returns immediately, otherwise it runs `math.ceil(total_records /
batch_size)` batches (exact ceiling division on naturals). -/
def fetch_all_district_data (total_records : Nat) (batch_size : Nat)
    (pages : Nat → List Rec) (scope : Scope) : List Rec × Scope × List Nat :=
  if total_records = 0 then ([], scope, [])
  else fetchAllLoop pages batch_size ((total_records + batch_size - 1) / batch_size) 0 scope

/-- Round `n / d` to the nearest integer, ties to even: the rounding rule of
Python `format` on an exactly representable quotient. -/
def divRoundHalfEven (n d : Nat) : Nat :=
  let q := n / d
  let r := n % d
  if 2 * r < d then q
  else if d < 2 * r then q + 1
  else if q % 2 = 0 then q else q + 1

/-- Python `f"{num/den*100:.1f}"` computed over exact rationals: the
percentage rounded to one decimal place, rendered as `"<int>.<tenth>"`. -/
def formatPct1 (num den : Nat) : String :=
  let tenths := divRoundHalfEven (num * 1000) den
  toString (tenths / 10) ++ "." ++ toString (tenths % 10)

/-- The `fetch_completion` metadata string built in
`DistrictDataFetcher.save_data`:
`f"{fetched}/{total_available} ({fetched/total_available*100:.1f}%)"` when
`total_available > 0`, else `"N/A"`. -/
def fetch_completion (fetched total_available : Nat) : String :=
  if 0 < total_available then
    toString fetched ++ "/" ++ toString total_available ++ " (" ++
      formatPct1 fetched total_available ++ "%)"
  else "N/A"

/-- `DistrictDataFetcher.save_data`, reduced to its observable metadata:
`none` when `data` is empty (the early return writes nothing), otherwise the
`fetch_completion` string placed in the written metadata.  The timestamp and
the gzip file write are external effects and are not modeled. -/
def save_data (data : List Rec) (total_available : Nat) : Option String :=
  if data.isEmpty then none
  else some (fetch_completion data.length total_available)

/-- One entry of the `summary` dict built by
`DistrictDataFetcher.process_districts`: either an error entry or a stats
entry `{'total_available': _, 'fetched': _, 'completion_rate': _}`. -/
inductive SummaryEntry
  | err (msg : String)
  | stats (total_available : Nat) (fetched : Nat) (completion_rate : String)

/-- The accumulation loop of `print_final_summary`: sums `total_available`
and `fetched` over the non-error entries, in order.  Returns
`(total_available, total_fetched)`. -/
def summaryTotals : List (String × SummaryEntry) → Nat × Nat
  | [] => (0, 0)
  | (_, SummaryEntry.err _) :: rest => summaryTotals rest
  | (_, SummaryEntry.stats available fetched _) :: rest =>
    let t := summaryTotals rest
    (t.1 + available, t.2 + fetched)

/-- `DistrictDataFetcher.print_final_summary`, reduced to its final TOTAL
line: the per-district log lines are external effects; the returned string
is the overall completion percentage
`f"{total_fetched/total_available*100:.1f}"` of the TOTAL line, and `none`
models the `ZeroDivisionError` raised by the unguarded division when
`total_available` is zero. -/
def print_final_summary (summary : List (String × SummaryEntry)) : Option String :=
  let t := summaryTotals summary
  if t.1 = 0 then none
  else some (formatPct1 t.2 t.1 ++ "% overall completion")

/-- A JSON value, the result of Python `json.loads` (numbers restricted to
integers, which covers the data at hand).  `Json.null` models Python
`None`. -/
inductive Json
  | null
  | bool (b : Bool)
  | num (n : Int)
  | str (s : String)
  | arr (elems : List Json)
  | obj (fields : List (String × Json))

/-- JSON insignificant whitespace. -/
def jsonWs (c : Char) : Bool :=
  c == ' ' || c == '\t' || c == '\n' || c == '\r'

/-- Drop leading JSON whitespace. -/
def skipWs : List Char → List Char
  | c :: cs => if jsonWs c then skipWs cs else c :: cs
  | [] => []

/-- Parse the rest of a JSON string literal after its opening quote, handling
the single-character escapes; returns the decoded string and the input after
the closing quote. -/
def parseStringRest : List Char → Option (String × List Char)
  | [] => none
  | '"' :: cs => some ("", cs)
  | '\\' :: e :: cs =>
    let esc : Option Char :=
      if e = '"' then some '"'
      else if e = '\\' then some '\\'
      else if e = '/' then some '/'
      else if e = 'n' then some '\n'
      else if e = 't' then some '\t'
      else if e = 'r' then some '\r'
      else if e = 'b' then some (Char.ofNat 8)
      else if e = 'f' then some (Char.ofNat 12)
      else none
    match esc with
    | none => none
    | some c =>
      match parseStringRest cs with
      | some (s, rest) => some (String.mk (c :: s.data), rest)
      | none => none
  | c :: cs =>
    match parseStringRest cs with
    | some (s, rest) => some (String.mk (c :: s.data), rest)
    | none => none

/-- Take a maximal run of decimal digits. -/
def takeDigits : List Char → List Char × List Char
  | c :: cs =>
    if c.isDigit then
      let t := takeDigits cs
      (c :: t.1, t.2)
    else ([], c :: cs)
  | [] => ([], [])

/-- Decimal digits to a natural number. -/
def digitsToNat (ds : List Char) : Nat :=
  ds.foldl (fun a c => a * 10 + (c.toNat - 48)) 0

mutual

/-- Recursive-descent JSON value parser (fuel-indexed). -/
def parseValue : Nat → List Char → Option (Json × List Char)
  | 0, _ => none
  | fuel + 1, input =>
    match skipWs input with
    | 'n' :: 'u' :: 'l' :: 'l' :: cs => some (Json.null, cs)
    | 't' :: 'r' :: 'u' :: 'e' :: cs => some (Json.bool true, cs)
    | 'f' :: 'a' :: 'l' :: 's' :: 'e' :: cs => some (Json.bool false, cs)
    | '"' :: cs =>
      (match parseStringRest cs with
       | some (s, rest) => some (Json.str s, rest)
       | none => none)
    | '[' :: cs =>
      (match skipWs cs with
       | ']' :: rest => some (Json.arr [], rest)
       | cs2 =>
         match parseElems fuel cs2 with
         | some (elems, rest) => some (Json.arr elems, rest)
         | none => none)
    | '{' :: cs =>
      (match skipWs cs with
       | '}' :: rest => some (Json.obj [], rest)
       | cs2 =>
         match parseMembers fuel cs2 with
         | some (fields, rest) => some (Json.obj fields, rest)
         | none => none)
    | '-' :: cs =>
      (match takeDigits cs with
       | ([], _) => none
       | (ds, rest) => some (Json.num (-(digitsToNat ds : Int)), rest))
    | cs =>
      (match takeDigits cs with
       | ([], _) => none
       | (ds, rest) => some (Json.num (digitsToNat ds), rest))

/-- Parse the elements of a non-empty JSON array, up to and including the
closing bracket. -/
def parseElems : Nat → List Char → Option (List Json × List Char)
  | 0, _ => none
  | fuel + 1, input =>
    match parseValue fuel input with
    | none => none
    | some (v, rest) =>
      match skipWs rest with
      | ',' :: cs =>
        (match parseElems fuel cs with
         | some (vs, rest2) => some (v :: vs, rest2)
         | none => none)
      | ']' :: cs => some ([v], cs)
      | _ => none

/-- Parse the members of a non-empty JSON object, up to and including the
closing brace. -/
def parseMembers : Nat → List Char → Option (List (String × Json) × List Char)
  | 0, _ => none
  | fuel + 1, input =>
    match skipWs input with
    | '"' :: cs =>
      (match parseStringRest cs with
       | none => none
       | some (k, rest) =>
         match skipWs rest with
         | ':' :: cs2 =>
           (match parseValue fuel cs2 with
            | none => none
            | some (v, rest2) =>
              match skipWs rest2 with
              | ',' :: cs3 =>
                (match parseMembers fuel cs3 with
                 | some (fields, rest3) => some ((k, v) :: fields, rest3)
                 | none => none)
              | '}' :: cs3 => some ([(k, v)], cs3)
              | _ => none)
         | _ => none)
    | _ => none

end

/-- Model of Python `json.loads` as used by `parse_activities`: the whole
input must be consumed (trailing whitespace allowed); `none` models a raised
decoding error. -/
def parse_json (s : String) : Option Json :=
  match parseValue (2 * s.length + 2) s.data with
  | some (v, rest) => if (skipWs rest).isEmpty then some v else none
  | none => none

/-- `parse_activities` from `src/parser.py`: `json.loads` the string; if the
result is a list with at least one element, return that element's
`NIC5DigitId` and `Description` values; on a decoding error, a non-list, an
empty list, a non-dict first element, or a missing key (the raised exception
is caught by the bare `except`), return `(None, None)`.  `none` models
Python `None`. -/
def parse_activities (activity_json_str : String) : Option Json × Option Json :=
  match parse_json activity_json_str with
  | some (Json.arr (first :: _)) =>
    (match first with
     | Json.obj fields =>
       (match fields.lookup "NIC5DigitId", fields.lookup "Description" with
        | some a, some b => (some a, some b)
        | _, _ => (none, none))
     | _ => (none, none))
  | _ => (none, none)

/-- One row of the flatten-and-export script body of `src/parser.py`: parse
the `Activities` cell with `parse_activities`, append the `NIC5Digit_code`
and `Activity_Description` columns, and drop the `Activities` column.  A row
without an `Activities` cell behaves like an unparsable one (pandas hands
`parse_activities` a NaN, whose `json.loads` raises).  Original cells keep
their string values; the two new cells hold the extracted JSON values or
`none`. -/
def flattenRow (row : Rec) : List (String × Option Json) :=
  let parsed :=
    match row.lookup "Activities" with
    | some s => parse_activities s
    | none => (none, none)
  (row.filter fun kv => kv.1 != "Activities").map (fun kv => (kv.1, some (Json.str kv.2)))
    ++ [("NIC5Digit_code", parsed.1), ("Activity_Description", parsed.2)]

/-- The whole flattened table: the script applies the row transformation to
every record of the loaded `data` sequence. -/
def flattenTable (data : List Rec) : List (List (String × Option Json)) :=
  data.map flattenRow

/-- When a key field is present under its exact name, the fallback to the
capitalized variant in `generate_record_id` is not taken. -/
theorem getKeyField_present (r : Rec) (f : String) (h : (r.lookup f).isSome) :
    getKeyField r f = (r.lookup f).getD "" := by
  unfold getKeyField
  cases hl : r.lookup f with
  | some v => rfl
  | none => rw [hl] at h; simp at h

/-- C3: the Identity Key computed by `generate_record_id` is a pure function
of the record and, when the four key fields are present under their exact
names, equals their trimmed, lower-cased values joined by `'|'`; hence two
records whose key field values agree up to letter case and surrounding
whitespace receive equal keys. -/
theorem c3_identity_key (r1 r2 : Rec)
    (h1 : ∀ f ∈ key_fields, (r1.lookup f).isSome)
    (h2 : ∀ f ∈ key_fields, (r2.lookup f).isSome)
    (heq : ∀ f ∈ key_fields,
      pyLower (pyStrip ((r1.lookup f).getD "")) = pyLower (pyStrip ((r2.lookup f).getD ""))) :
    generate_record_id r1 =
      String.intercalate "|"
        (key_fields.map fun f => pyLower (pyStrip ((r1.lookup f).getD ""))) ∧
    generate_record_id r1 = generate_record_id r2 := by
  have m1 : key_fields.map (fun f => pyLower (pyStrip (getKeyField r1 f)))
      = key_fields.map (fun f => pyLower (pyStrip ((r1.lookup f).getD ""))) :=
    List.map_congr_left fun f hf => by rw [getKeyField_present r1 f (h1 f hf)]
  have m2 : key_fields.map (fun f => pyLower (pyStrip (getKeyField r2 f)))
      = key_fields.map (fun f => pyLower (pyStrip ((r2.lookup f).getD ""))) :=
    List.map_congr_left fun f hf => by rw [getKeyField_present r2 f (h2 f hf)]
  have m3 : key_fields.map (fun f => pyLower (pyStrip ((r1.lookup f).getD "")))
      = key_fields.map (fun f => pyLower (pyStrip ((r2.lookup f).getD ""))) :=
    List.map_congr_left heq
  constructor
  · unfold generate_record_id
    rw [m1]
  · unfold generate_record_id
    rw [m1, m2, m3]

/-- Witness for C3 at concrete records differing only in case and
surrounding whitespace of the key fields. -/
theorem c3_witness :
    generate_record_id
        [("District", " LATUR "), ("State", "MH"), ("EnterpriseName", "Foo"),
         ("CommunicationAddress", "12 Main Rd")] =
      String.intercalate "|" (key_fields.map fun f =>
        pyLower (pyStrip (([("District", " LATUR "), ("State", "MH"), ("EnterpriseName", "Foo"),
           ("CommunicationAddress", "12 Main Rd")].lookup f).getD ""))) ∧
    generate_record_id
        [("District", " LATUR "), ("State", "MH"), ("EnterpriseName", "Foo"),
         ("CommunicationAddress", "12 Main Rd")] =
      generate_record_id
        [("District", "Latur"), ("State", " mh"), ("EnterpriseName", "FOO"),
         ("CommunicationAddress", "12 MAIN RD ")] :=
  c3_identity_key
    [("District", " LATUR "), ("State", "MH"), ("EnterpriseName", "Foo"),
     ("CommunicationAddress", "12 Main Rd")]
    [("District", "Latur"), ("State", " mh"), ("EnterpriseName", "FOO"),
     ("CommunicationAddress", "12 MAIN RD ")]
    (by decide) (by decide) (by decide)

/-- C4: a record whose key is not yet in the Fetch Scope is accepted and its
key inserted; presenting it again is rejected with the scope unchanged; on an
empty (reset) scope it is accepted again. -/
theorem c4_dedup_accept_reject (r : Rec) (scope : Scope)
    (h : generate_record_id r ∉ scope) :
    (is_duplicate_record r scope).1 = false ∧
    (is_duplicate_record r scope).2 = generate_record_id r :: scope ∧
    is_duplicate_record r (is_duplicate_record r scope).2 =
      (true, (is_duplicate_record r scope).2) ∧
    (is_duplicate_record r []).1 = false := by
  have hfirst : is_duplicate_record r scope = (false, generate_record_id r :: scope) := by
    simp only [is_duplicate_record]
    rw [if_neg h]
  refine ⟨by rw [hfirst], by rw [hfirst], ?_, ?_⟩
  · rw [hfirst]
    simp only [is_duplicate_record]
    rw [if_pos (List.mem_cons_self _ _)]
  · simp only [is_duplicate_record]
    rw [if_neg (List.not_mem_nil _)]

/-- Witness for C4 at a concrete record and the empty scope. -/
theorem c4_witness :
    (is_duplicate_record [("District", "Latur")] []).1 = false ∧
    (is_duplicate_record [("District", "Latur")] []).2 =
      generate_record_id [("District", "Latur")] :: [] ∧
    is_duplicate_record [("District", "Latur")]
        (is_duplicate_record [("District", "Latur")] []).2 =
      (true, (is_duplicate_record [("District", "Latur")] []).2) ∧
    (is_duplicate_record [("District", "Latur")] []).1 = false :=
  c4_dedup_accept_reject [("District", "Latur")] [] (by decide)

/-- C1: when the first attempt of `fetch_batch` raises a JSON decode error,
the function returns the empty list at once: no further attempt is made and
no backoff sleep is performed. -/
theorem c1_decode_fail_fast (outcomes : Nat → AttemptOutcome) (max_retries : Nat)
    (hmr : 1 ≤ max_retries) (hdec : outcomes 0 = AttemptOutcome.decodeError) :
    fetch_batch outcomes max_retries = (some [], []) := by
  obtain ⟨m, rfl⟩ : ∃ m, max_retries = m + 1 := ⟨max_retries - 1, by omega⟩
  unfold fetch_batch fetchBatchGo
  rw [hdec]

/-- Witness for C1 with the default three retries. -/
theorem c1_witness :
    fetch_batch (fun _ => AttemptOutcome.decodeError) 3 = (some [], []) :=
  c1_decode_fail_fast (fun _ => AttemptOutcome.decodeError) 3 (by decide) rfl

/-- C5: with `max_retries = 3`, two request-level failures followed by a
success yield exactly the successful page's records, with backoff sleeps of
2^0 = 1 and 2^1 = 2 seconds between consecutive attempts. -/
theorem c5_retry_then_success (records : List Rec) :
    fetch_batch
        (fun n => if n < 2 then AttemptOutcome.requestError
                  else AttemptOutcome.success records) 3 =
      (some records, [1, 2]) := rfl

/-- C2: when the non-error entries of the summary have `total_available`
values summing to zero, the final aggregate percentage of
`print_final_summary` divides by zero and the call does not complete
normally (modeled by `none`). -/
theorem c2_summary_div_by_zero (summary : List (String × SummaryEntry))
    (h : (summaryTotals summary).1 = 0) :
    print_final_summary summary = none := by
  simp [print_final_summary, h]

/-- Witness for C2 at a summary whose single non-error entry reports zero
available records. -/
theorem c2_witness :
    print_final_summary [("LATUR", SummaryEntry.stats 0 0 "0%")] = none :=
  c2_summary_div_by_zero [("LATUR", SummaryEntry.stats 0 0 "0%")] rfl

/-- C7: the completion string written by `save_data` is
`"750/1000 (75.0%)"` for 750 fetched out of 1000 available, and `"N/A"`
whenever zero records are available. -/
theorem c7_completion_string :
    (∀ data : List Rec, data.length = 750 →
      save_data data 1000 = some "750/1000 (75.0%)") ∧
    (∀ data : List Rec, data ≠ [] → save_data data 0 = some "N/A") := by
  constructor
  · intro data h
    cases data with
    | nil => simp at h
    | cons a t =>
      simp only [save_data, List.isEmpty_cons, Bool.false_eq_true, if_false, h]
      rfl
  · intro data h
    cases data with
    | nil => exact absurd rfl h
    | cons a t =>
      simp only [save_data, List.isEmpty_cons, Bool.false_eq_true, if_false]
      rfl

/-- Witness for C7 at a concrete 750-record list and a concrete non-empty
list with zero available. -/
theorem c7_witness :
    save_data (List.replicate 750 ([] : Rec)) 1000 = some "750/1000 (75.0%)" ∧
    save_data [[("District", "Latur")]] 0 = some "N/A" :=
  ⟨c7_completion_string.1 (List.replicate 750 []) (List.length_replicate 750 []),
   c7_completion_string.2 [[("District", "Latur")]] (by simp)⟩

/-- The offsets requested by the batch loop are the page indices times the
batch size, in sequential order, independent of the pages served. -/
theorem fetchAllLoop_offsets (pages : Nat → List Rec) (batch_size : Nat) :
    ∀ (n batch : Nat) (scope : Scope),
      (fetchAllLoop pages batch_size n batch scope).2.2
        = (List.range n).map fun i => (batch + i) * batch_size := by
  intro n
  induction n with
  | zero => intro batch scope; rfl
  | succ k ih =>
    intro batch scope
    simp only [fetchAllLoop]
    rw [ih]
    rw [List.range_succ_eq_map, List.map_cons, List.map_map]
    congr 1
    exact List.map_congr_left fun i hi => by
      simp only [Function.comp_apply, Nat.succ_eq_add_one]
      ring

/-- C6: for a source reporting 2500 total records and batch size 1000,
`fetch_all_district_data` requests exactly three pages, in order, at offsets
0, 1000 and 2000, whatever the pages contain and whatever the starting
scope is. -/
theorem c6_pagination_offsets (pages : Nat → List Rec) (scope : Scope) :
    (fetch_all_district_data 2500 1000 pages scope).2.2 = [0, 1000, 2000] := by
  unfold fetch_all_district_data
  rw [if_neg (by decide)]
  rw [fetchAllLoop_offsets]
  decide

/-- The duplicate filter of one batch: the surviving records have pairwise
distinct identity keys, none of which was already in the scope; the scope
only grows, and every surviving key ends up in the final scope. -/
theorem filterDuplicates_spec (l : List Rec) : ∀ scope : Scope,
    ((filterDuplicates l scope).1.map generate_record_id).Nodup ∧
    (∀ k ∈ (filterDuplicates l scope).1.map generate_record_id, k ∉ scope) ∧
    (∀ k ∈ scope, k ∈ (filterDuplicates l scope).2) ∧
    (∀ k ∈ (filterDuplicates l scope).1.map generate_record_id,
      k ∈ (filterDuplicates l scope).2) := by
  induction l with
  | nil =>
    intro scope
    exact ⟨List.nodup_nil, by simp [filterDuplicates], fun k hk => hk, by simp [filterDuplicates]⟩
  | cons r rest ih =>
    intro scope
    by_cases hmem : generate_record_id r ∈ scope
    · have hfd : filterDuplicates (r :: rest) scope = filterDuplicates rest scope := by
        simp [filterDuplicates, is_duplicate_record, hmem]
      rw [hfd]
      exact ih scope
    · have hfd : filterDuplicates (r :: rest) scope =
          (r :: (filterDuplicates rest (generate_record_id r :: scope)).1,
           (filterDuplicates rest (generate_record_id r :: scope)).2) := by
        simp [filterDuplicates, is_duplicate_record, hmem]
      rw [hfd]
      obtain ⟨ih1, ih2, ih3, ih4⟩ := ih (generate_record_id r :: scope)
      refine ⟨?_, ?_, ?_, ?_⟩
      · simp only [List.map_cons, List.nodup_cons]
        exact ⟨fun hk => (ih2 _ hk) (List.mem_cons_self _ _), ih1⟩
      · intro k hk
        simp only [List.map_cons, List.mem_cons] at hk
        rcases hk with rfl | hk
        · exact hmem
        · exact fun hks => (ih2 k hk) (List.mem_cons_of_mem _ hks)
      · intro k hks
        exact ih3 k (List.mem_cons_of_mem _ hks)
      · intro k hk
        simp only [List.map_cons, List.mem_cons] at hk
        rcases hk with rfl | hk
        · exact ih3 _ (List.mem_cons_self _ _)
        · exact ih4 k hk

/-- The batch-level guard `if batch_records:` preserves the filter
properties: an empty batch changes nothing. -/
theorem filterDuplicatesIf_spec (l : List Rec) (scope : Scope) :
    (((if l.isEmpty then ([], scope) else filterDuplicates l scope).1.map
        generate_record_id).Nodup) ∧
    (∀ k ∈ (if l.isEmpty then ([], scope) else filterDuplicates l scope).1.map
        generate_record_id, k ∉ scope) ∧
    (∀ k ∈ scope, k ∈ (if l.isEmpty then ([], scope) else filterDuplicates l scope).2) ∧
    (∀ k ∈ (if l.isEmpty then ([], scope) else filterDuplicates l scope).1.map
        generate_record_id,
      k ∈ (if l.isEmpty then ([], scope) else filterDuplicates l scope).2) := by
  by_cases h : l.isEmpty = true
  · rw [if_pos h]
    exact ⟨List.nodup_nil, by simp, fun k hk => hk, by simp⟩
  · rw [if_neg h]
    exact filterDuplicates_spec l scope

/-- Records accumulated by the batch loop have pairwise distinct identity
keys, none of which was already in the starting scope. -/
theorem fetchAllLoop_nodup (pages : Nat → List Rec) (batch_size : Nat) :
    ∀ (n batch : Nat) (scope : Scope),
      ((fetchAllLoop pages batch_size n batch scope).1.map generate_record_id).Nodup ∧
      (∀ k ∈ (fetchAllLoop pages batch_size n batch scope).1.map generate_record_id,
        k ∉ scope) := by
  intro n
  induction n with
  | zero => intro batch scope; exact ⟨List.nodup_nil, by simp [fetchAllLoop]⟩
  | succ m ih =>
    intro batch scope
    simp only [fetchAllLoop]
    obtain ⟨hfd1, hfd2, hfd3, hfd4⟩ :=
      filterDuplicatesIf_spec (pages (batch * batch_size)) scope
    obtain ⟨ih1, ih2⟩ := ih (batch + 1)
      (if (pages (batch * batch_size)).isEmpty then ([], scope)
       else filterDuplicates (pages (batch * batch_size)) scope).2
    constructor
    · rw [List.map_append, List.nodup_append]
      exact ⟨hfd1, ih1, fun k hk1 hk2 => (ih2 k hk2) (hfd4 k hk1)⟩
    · intro k hk
      rw [List.map_append, List.mem_append] at hk
      rcases hk with hk | hk
      · exact hfd2 k hk
      · exact fun hks => (ih2 k hk) (hfd3 k hks)

/-- C10: the records returned by `fetch_all_district_data` from an empty
starting scope have pairwise distinct identity keys. -/
theorem c10_returned_ids_distinct (total_records batch_size : Nat)
    (pages : Nat → List Rec) :
    ((fetch_all_district_data total_records batch_size pages []).1.map
      generate_record_id).Nodup := by
  unfold fetch_all_district_data
  by_cases h : total_records = 0
  · rw [if_pos h]
    exact List.nodup_nil
  · rw [if_neg h]
    exact (fetchAllLoop_nodup pages batch_size _ 0 []).1

/-- Looking a key up in an appended association list skips a first part that
does not bind it. -/
theorem lookup_append_left_none {β : Type} (l1 l2 : List (String × β)) (k : String)
    (h : l1.lookup k = none) : (l1 ++ l2).lookup k = l2.lookup k := by
  induction l1 with
  | nil => rfl
  | cons hd tl ih =>
    obtain ⟨a, b⟩ := hd
    rw [List.cons_append]
    simp only [List.lookup] at h ⊢
    cases hka : (k == a) with
    | true => rw [hka] at h; simp at h
    | false =>
      rw [hka] at h
      exact ih h

/-- A key absent from a row stays absent after the filter-and-wrap step of
`flattenRow`. -/
theorem lookup_filterMap_none (l : Rec) (k : String) (p : String × String → Bool)
    (h : l.lookup k = none) :
    ((l.filter p).map fun kv => ((kv.1 : String), some (Json.str kv.2))).lookup k
      = none := by
  induction l with
  | nil => rfl
  | cons hd tl ih =>
    obtain ⟨a, b⟩ := hd
    simp only [List.lookup] at h
    cases hka : (k == a) with
    | true => rw [hka] at h; simp at h
    | false =>
      rw [hka] at h
      cases hp : p (a, b) with
      | true =>
        simp only [List.filter_cons, hp, if_true, List.map_cons, List.lookup, hka]
        exact ih h
      | false =>
        simp only [List.filter_cons, hp, Bool.false_eq_true, if_false]
        exact ih h

/-- The flattened row never carries an `Activities` column. -/
theorem flattenRow_no_activities (row : Rec) :
    "Activities" ∉ (flattenRow row).map Prod.fst := by
  unfold flattenRow
  intro hmem
  simp only [List.map_append, List.map_map, List.mem_append] at hmem
  rcases hmem with h | h
  · simp only [List.mem_map, List.mem_filter, Function.comp_apply] at h
    obtain ⟨kv, ⟨hkv, hp⟩, hfst⟩ := h
    rw [hfst] at hp
    simp at hp
  · simp at h

/-- C8: a row whose `Activities` cell is the given one-activity JSON string
flattens to a row carrying `NIC5Digit_code = "01111"` and
`Activity_Description = "Growing of cereals"` and no `Activities` column;
a row whose `Activities` cell is `"[]"` or unparsable text gets the null
marker in both new columns.  (The row is assumed not to collide with the
two generated column names.) -/
theorem c8_flattening (row : Rec)
    (hact : row.lookup "Activities" =
      some "[\x7b\"NIC5DigitId\":\"01111\",\"Description\":\"Growing of cereals\"\x7d]")
    (hc1 : row.lookup "NIC5Digit_code" = none)
    (hc2 : row.lookup "Activity_Description" = none) :
    ((flattenRow row).lookup "NIC5Digit_code" = some (some (Json.str "01111")) ∧
     (flattenRow row).lookup "Activity_Description" =
       some (some (Json.str "Growing of cereals")) ∧
     "Activities" ∉ (flattenRow row).map Prod.fst) ∧
    (∀ (r2 : Rec) (s : String), r2.lookup "Activities" = some s →
      (parse_json s = none ∨ s = "[]") →
      r2.lookup "NIC5Digit_code" = none → r2.lookup "Activity_Description" = none →
      (flattenRow r2).lookup "NIC5Digit_code" = some none ∧
      (flattenRow r2).lookup "Activity_Description" = some none) := by
  constructor
  · have hrow : flattenRow row =
        ((row.filter fun kv => kv.1 != "Activities").map fun kv =>
          (kv.1, some (Json.str kv.2)))
          ++ [("NIC5Digit_code", some (Json.str "01111")),
              ("Activity_Description", some (Json.str "Growing of cereals"))] := by
      unfold flattenRow
      rw [hact]
      rfl
    refine ⟨?_, ?_, flattenRow_no_activities row⟩
    · rw [hrow, lookup_append_left_none _ _ _ (lookup_filterMap_none row _ _ hc1)]
      rfl
    · rw [hrow, lookup_append_left_none _ _ _ (lookup_filterMap_none row _ _ hc2)]
      rfl
  · intro r2 s hs hcase h1 h2
    have hpa : parse_activities s = (none, none) := by
      rcases hcase with hn | rfl
      · unfold parse_activities
        rw [hn]
      · rfl
    have hrow : flattenRow r2 =
        ((r2.filter fun kv => kv.1 != "Activities").map fun kv =>
          (kv.1, some (Json.str kv.2)))
          ++ [("NIC5Digit_code", none), ("Activity_Description", none)] := by
      unfold flattenRow
      rw [hs]
      show ((r2.filter fun kv => kv.1 != "Activities").map fun kv =>
          (kv.1, some (Json.str kv.2)))
          ++ [("NIC5Digit_code", (parse_activities s).1),
              ("Activity_Description", (parse_activities s).2)] = _
      rw [hpa]
    constructor
    · rw [hrow, lookup_append_left_none _ _ _ (lookup_filterMap_none r2 _ _ h1)]
      rfl
    · rw [hrow, lookup_append_left_none _ _ _ (lookup_filterMap_none r2 _ _ h2)]
      rfl

/-- Witness for C8 at concrete rows: a parsable one-activity cell, an empty
list, and unparsable text. -/
theorem c8_witness :
    (flattenRow [("EnterpriseName", "X"),
        ("Activities",
         "[\x7b\"NIC5DigitId\":\"01111\",\"Description\":\"Growing of cereals\"\x7d]")]).lookup
        "NIC5Digit_code" = some (some (Json.str "01111")) ∧
    (flattenRow [("Activities", "[]")]).lookup "NIC5Digit_code" = some none ∧
    (flattenRow [("Activities", "not json")]).lookup "Activity_Description" = some none := by
  have h := c8_flattening
    [("EnterpriseName", "X"),
     ("Activities", "[\x7b\"NIC5DigitId\":\"01111\",\"Description\":\"Growing of cereals\"\x7d]")]
    rfl rfl rfl
  refine ⟨h.1.1, ?_, ?_⟩
  · exact (h.2 [("Activities", "[]")] "[]" rfl (Or.inr rfl) rfl rfl).1
  · exact (h.2 [("Activities", "not json")] "not json" rfl (Or.inl rfl) rfl rfl).2

/-- C9: `parse_activities` is total over the embedding and yields
`(None, None)` in every non-success case: undecodable input, a decoded value
that is not a list, an empty list, and a first element that is a dict
missing `NIC5DigitId` or `Description`. -/
theorem c9_parse_activities_total (s : String) :
    (parse_json s = none → parse_activities s = (none, none)) ∧
    (∀ v, parse_json s = some v → (∀ elems, v ≠ Json.arr elems) →
      parse_activities s = (none, none)) ∧
    (parse_json s = some (Json.arr []) → parse_activities s = (none, none)) ∧
    (∀ first rest, parse_json s = some (Json.arr (first :: rest)) →
      (∀ fields, first = Json.obj fields →
        fields.lookup "NIC5DigitId" = none ∨ fields.lookup "Description" = none) →
      parse_activities s = (none, none)) := by
  refine ⟨?_, ?_, ?_, ?_⟩
  · intro h
    unfold parse_activities
    rw [h]
  · intro v h hne
    unfold parse_activities
    rw [h]
    cases v with
    | arr elems => exact absurd rfl (hne elems)
    | null => rfl
    | bool b => rfl
    | num n => rfl
    | str t => rfl
    | obj fields => rfl
  · intro h
    unfold parse_activities
    rw [h]
  · intro first rest h hmiss
    unfold parse_activities
    rw [h]
    cases first with
    | obj fields =>
      dsimp only
      rcases hmiss fields rfl with hnone | hnone
      · rw [hnone]
      · rw [hnone]
        cases fields.lookup "NIC5DigitId" <;> rfl
    | null => rfl
    | bool b => rfl
    | num n => rfl
    | str t => rfl
    | arr elems => rfl

/-- Witness for C9 at concrete inputs covering the four non-success cases. -/
theorem c9_witness :
    parse_activities "not json" = (none, none) ∧
    parse_activities "\"x\"" = (none, none) ∧
    parse_activities "[]" = (none, none) ∧
    parse_activities "[\x7b\"Description\":\"d\"\x7d]" = (none, none) := by
  refine ⟨(c9_parse_activities_total "not json").1 rfl, ?_, ?_, ?_⟩
  · exact (c9_parse_activities_total "\"x\"").2.1 (Json.str "x") rfl
      (fun elems h => Json.noConfusion h)
  · exact (c9_parse_activities_total "[]").2.2.1 rfl
  · refine (c9_parse_activities_total "[\x7b\"Description\":\"d\"\x7d]").2.2.2
      (Json.obj [("Description", Json.str "d")]) [] rfl ?_
    intro fields hf
    cases hf
    left
    rfl
